import Mathlib

/-!
Verification of the garmini Garmin serial-link stack against its source
(src/garmin.c, src/garmin.h, src/garmini.c).

The development shallowly embeds the code in layers:

* byte level — the DLE/ETX framer (`garmin_write_packet`,
  `garmin_read_packet`) operating on `List Nat` byte streams,
  mirroring src/garmin.c lines 176-269;
* packet level — the link session (`garmin_write_packet_ack_model`,
  `garmin_expect_packet_ack`, `garmini_expect_packet_ack`, `garmin_each`,
  `garmin_new_model`) operating on `List garmin_packet_t` device-reply
  streams, mirroring src/garmin.c lines 271-400 and the variant in
  src/garmini.c lines 444-474;
* capability resolution (`garmin_trk_scan`,
  `garmin_transfer_trk_resolve`) mirroring src/garmin.c lines 485-564;
* the IGC emitter (`garmini_write_igc`) and the download operation
  (`garmini_download`) mirroring src/garmini.c lines 840-943.

Machine integers are modelled as `Nat` (bytes carry an explicit `% 256`
where the C code truncates to `unsigned char`), fallible code returns an
explicit result inductive, and the process-terminating `error(...)` calls
of the C code are modelled as a `fatal` constructor carrying the format
string's fixed part.
-/

/-- Mirror of `garmin_packet_t` (src/garmin.h): `{ int id; int size;
unsigned char data[255]; }`.  `data` holds only the `size` meaningful
bytes. -/
structure garmin_packet_t where
  id : Nat
  size : Nat
  data : List Nat
deriving DecidableEq

/-- Stuffing of a single byte as performed by `garmin_write_packet`
(src/garmin.c lines 242-254): a byte equal to `DLE` (16) is doubled. -/
def garmin_stuff (c : Nat) : List Nat :=
  if c = 16 then [16, 16] else [c]

/-- Mirror of `garmin_write_packet` (src/garmin.c lines 237-269).  The
frame is `DLE`, the stuffed id, the stuffed size, the stuffed payload, the
stuffed checksum, then `DLE ETX`.  The id and size are `int` fields written
through `unsigned char`, hence the `% 256`; the stuffing test compares the
original field, exactly as the C code does (`if (packet->id == DLE)`).
The checksum is the two's complement of the byte sum, truncated to 8
bits. -/
def garmin_write_packet (p : garmin_packet_t) : List Nat :=
  let csum := (256 - (p.id + p.size + p.data.sum) % 256) % 256
  [16] ++ (p.id % 256 :: (if p.id = 16 then [16] else []))
       ++ (p.size % 256 :: (if p.size = 16 then [16] else []))
       ++ p.data.flatMap (fun b => b :: (if b = 16 then [16] else []))
       ++ (csum :: (if csum = 16 then [16] else []))
       ++ [16, 3]

/-- Result of reading one (possibly unstuffed) byte: end of stream, a
fatal protocol error (the C code calls `error(...)` and exits), or a byte
plus the remaining stream. -/
inductive GetRes where
  | eof
  | fatal (msg : String)
  | ok (c : Nat) (rest : List Nat)
deriving DecidableEq

/-- Mirror of `garmin_getc_dle` (src/garmin.c lines 176-182): read one
byte; if it is `DLE` the next byte must also be `DLE` (doubled-DLE
escape), otherwise the decode fails with "expected DLE". -/
def garmin_getc_dle : List Nat → GetRes
  | [] => .eof
  | c :: rest =>
    if c = 16 then
      match rest with
      | [] => .fatal "expected DLE"
      | c2 :: rest2 => if c2 = 16 then .ok 16 rest2 else .fatal "expected DLE"
    else .ok c rest

/-- Result of reading a run of unstuffed payload bytes. -/
inductive GetListRes where
  | eof
  | fatal (msg : String)
  | ok (ds : List Nat) (rest : List Nat)
deriving DecidableEq

/-- The payload loop of `garmin_read_packet` (src/garmin.c lines
207-213): read `n` bytes through `garmin_getc_dle`. -/
def garmin_read_data : Nat → List Nat → GetListRes
  | 0, s => .ok [] s
  | n + 1, s =>
    match garmin_getc_dle s with
    | .eof => .eof
    | .fatal m => .fatal m
    | .ok c r =>
      match garmin_read_data n r with
      | .eof => .eof
      | .fatal m => .fatal m
      | .ok ds r2 => .ok (c :: ds) r2

/-- Result of decoding one frame. -/
inductive ReadPacketRes where
  | eof
  | fatal (msg : String)
  | ok (p : garmin_packet_t) (rest : List Nat)
deriving DecidableEq

/-- Mirror of `garmin_read_packet` (src/garmin.c lines 193-235).  The
first byte of the frame is read and its value discarded (the C code never
compares it against `DLE`); id, size, payload and checksum are read
through `garmin_getc_dle`; the checksum must equal
`(~(id+size+sum) + 1) & 0xff`; the trailer is two raw bytes `DLE ETX`.
An end of stream inside the frame is the fatal "incomplete packet". -/
def garmin_read_packet (s : List Nat) : ReadPacketRes :=
  match s with
  | [] => .eof
  | _ :: s1 =>
    match garmin_getc_dle s1 with
    | .eof => .fatal "incomplete packet"
    | .fatal m => .fatal m
    | .ok id s2 =>
      match garmin_getc_dle s2 with
      | .eof => .fatal "incomplete packet"
      | .fatal m => .fatal m
      | .ok size s3 =>
        match garmin_read_data size s3 with
        | .eof => .fatal "incomplete packet"
        | .fatal m => .fatal m
        | .ok data s4 =>
          match garmin_getc_dle s4 with
          | .eof => .fatal "incomplete packet"
          | .fatal m => .fatal m
          | .ok csum s5 =>
            if csum ≠ (256 - (id + size + data.sum) % 256) % 256 then
              .fatal "checksum failed"
            else
              match s5 with
              | [] => .fatal "incomplete packet"
              | c :: s6 =>
                if c ≠ 16 then .fatal "expected DLE"
                else
                  match s6 with
                  | [] => .fatal "incomplete packet"
                  | e :: s7 =>
                    if e ≠ 3 then .fatal "expected ETX"
                    else .ok ⟨id, size, data⟩ s7

/-- A canonical on-wire frame carrying id `id`, payload `data` (the size
byte is the payload length) and checksum byte `c`, each field
DLE-stuffed, with the leading `DLE` and trailing `DLE ETX`. -/
def garmin_frame (id : Nat) (data : List Nat) (c : Nat) : List Nat :=
  [16] ++ garmin_stuff id ++ garmin_stuff data.length
       ++ data.flatMap garmin_stuff ++ garmin_stuff c ++ [16, 3]

/-!
Packet-level session layer.  Claims C4-C6 and C10 concern control flow
over whole packets, so the device's replies are modelled as a
`List garmin_packet_t` (each element one successfully framed packet; an
exhausted list is the transport-level clean EOF — `garmin_getc`
returning `EOF` at the top of a frame).  A crucial detail carried over
from the source: `garmin_read_packet` begins with
`memset(packet, 0, sizeof packet)` — `sizeof` of a *pointer*, which on
both LP64 and ILP32 hosts zeroes exactly the `id` (and on LP64 also the
`size`) field — and returns `EOF` without storing `EOF` in `packet->id`.
Hence after a clean EOF the caller observes `packet.id == 0`, never
`EOF`; the modelled EOF cases below reflect that.
-/

/-- Host-visible effects of the session layer: a packet written to the
device, a warning logged, or an invocation of the transfer callback with
`(i, records, packet)`. -/
inductive GEvent where
  | wrote (p : garmin_packet_t)
  | warned (p : garmin_packet_t)
  | invoked (i n : Nat) (p : garmin_packet_t)
deriving DecidableEq

/-- Result of a session-layer operation: a fatal `error(...)` exit, an
infinite retry loop (reads at EOF time out forever), or a value. -/
inductive SRes (α : Type) where
  | fatal (msg : String)
  | hang
  | ok (a : α)
deriving DecidableEq

/-- The acknowledgement packet built by `garmin_read_packet_ack`
(src/garmin.c lines 271-281): id `Pid_Ack_Byte` (6), 2-byte little-endian
payload carrying the acknowledged packet id. -/
def garmin_ack (id : Nat) : garmin_packet_t :=
  ⟨6, 2, [id % 256, id / 256 % 256]⟩

/-- Reading of `*((uint16_t *) data)` on a little-endian host. -/
def u16le (l : List Nat) : Nat :=
  l.getD 0 0 + 256 * l.getD 1 0

/-- Mirror of `garmin_write_packet_ack` (src/garmin.c lines 290-301):
send `pkt`, then read one packet which must be an ack (id 6) whose 1- or
2-byte payload names `pkt.id`; a payload of any other length is not
checked.  On clean EOF the local ack struct keeps its zeroed id, so the
"expected ack packet" error fires.  Returns the remaining reply
stream. -/
def garmin_write_packet_ack_model (pkt : garmin_packet_t)
    (s : List garmin_packet_t) : SRes (List garmin_packet_t) :=
  match s with
  | [] => .fatal "expected ack packet"
  | a :: rest =>
    if a.id ≠ 6 then .fatal "expected ack packet"
    else if a.size < 1 then .fatal "ack packet too short"
    else if (a.size = 1 ∧ a.data.getD 0 0 ≠ pkt.id) ∨
            (a.size = 2 ∧ u16le a.data ≠ pkt.id) then .fatal "ack to wrong packet!"
    else .ok rest

/-- Mirror of `garmin_expect_packet_ack` in src/garmin.c lines 283-288:
repeatedly read-and-ack until a packet with the expected id arrives,
logging a warning for every other packet.  At EOF, `garmin_read_packet_ack`
keeps returning `EOF` (which never equals the expected id), so the loop
never terminates: `hang`.  Returns the matching packet, the remaining
stream, and the host-side events (one ack write per packet read, one
warning per skipped packet). -/
def garmin_expect_packet_ack (id : Nat) :
    List garmin_packet_t → SRes (garmin_packet_t × List garmin_packet_t × List GEvent)
  | [] => .hang
  | p :: rest =>
    if p.id = id then .ok (p, rest, [.wrote (garmin_ack p.id)])
    else
      match garmin_expect_packet_ack id rest with
      | .fatal m => .fatal m
      | .hang => .hang
      | .ok (q, r, evs) => .ok (q, r, .wrote (garmin_ack p.id) :: .warned p :: evs)

/-- Mirror of the *other* `garmin_expect_packet_ack`, the one compiled
into the self-contained src/garmini.c (lines 456-461): read one packet
(acknowledging it); if its id is not the expected one, fail fatally with
"unexpected packet".  At EOF the returned `EOF` differs from any expected
id, so the same fatal error fires. -/
def garmini_expect_packet_ack (id : Nat) :
    List garmin_packet_t → SRes (garmin_packet_t × List garmin_packet_t × List GEvent)
  | [] => .fatal "unexpected packet"
  | p :: rest =>
    if p.id = id then .ok (p, rest, [.wrote (garmin_ack p.id)])
    else .fatal "unexpected packet"

/-- The record loop of `garmin_each` (src/garmin.c lines 394-398): for
each `i < rem` read one packet with ack and invoke the callback with
`(i, n, packet)`.  The loop never checks for EOF: at EOF the callback is
invoked with the packet struct whose id and size were zeroed by
`garmin_read_packet` (no ack is written then; the stale payload bytes the
C struct would retain are not modelled — no path below inspects them). -/
def garmin_each_loop (n : Nat) : Nat → Nat → List garmin_packet_t →
    List GEvent × List garmin_packet_t
  | _, 0, s => ([], s)
  | i, rem + 1, [] =>
    let r := garmin_each_loop n (i + 1) rem []
    (GEvent.invoked i n ⟨0, 0, []⟩ :: r.1, r.2)
  | i, rem + 1, p :: s =>
    let r := garmin_each_loop n (i + 1) rem s
    (GEvent.wrote (garmin_ack p.id) :: GEvent.invoked i n p :: r.1, r.2)

/-- Mirror of `garmin_each` (src/garmin.c lines 385-400): send a
`Pid_Command_Data` (10) packet carrying `command` as u16 LE; expect
`Pid_Records` (27) whose payload's u16 LE is the record count; read and
ack that many packets, invoking the callback for each; finally expect
`Pid_Xfer_Cmplt` (12).  The result is the host-side event trace. -/
def garmin_each (command : Nat) (stream : List garmin_packet_t) : SRes (List GEvent) :=
  let cmdPkt : garmin_packet_t := ⟨10, 2, [command % 256, command / 256 % 256]⟩
  match garmin_write_packet_ack_model cmdPkt stream with
  | .fatal m => .fatal m
  | .hang => .hang
  | .ok s1 =>
    match garmin_expect_packet_ack 27 s1 with
    | .fatal m => .fatal m
    | .hang => .hang
    | .ok (recPkt, s2, evs1) =>
      let n := u16le recPkt.data
      let r := garmin_each_loop n 0 n s2
      match garmin_expect_packet_ack 12 r.2 with
      | .fatal m => .fatal m
      | .hang => .hang
      | .ok (_, _, evs3) => .ok (GEvent.wrote cmdPkt :: evs1 ++ r.1 ++ evs3)

/-- Mirror of `Protocol_Data_Type` (src/garmin.h): a packed
`{ uint8_t tag; uint16_t data; }` capability entry. -/
structure Protocol_Data_Type where
  tag : Nat
  data : Nat
deriving DecidableEq

/-- Mirror of `garmin_grep_protocol` (src/garmin.c lines 303-310): first
entry with the given tag and data, if any. -/
def garmin_grep_protocol : List Protocol_Data_Type → Nat → Nat → Option Protocol_Data_Type
  | [], _, _ => none
  | e :: rest, tag, data =>
    if e.tag = tag ∧ e.data = data then some e
    else garmin_grep_protocol rest tag data

/-- The `memcpy` of the `Pid_Protocol_Array` payload into
`nprotocols = size / 3` packed 3-byte entries (src/garmin.c lines
344-347): `tag` is one byte, `data` is u16 LE. -/
def protocols_of_bytes (size : Nat) (data : List Nat) : List Protocol_Data_Type :=
  (List.range (size / 3)).map
    (fun i => ⟨data.getD (3 * i) 0, data.getD (3 * i + 1) 0 + 256 * data.getD (3 * i + 2) 0⟩)

/-- The state `garmin_new` leaves in the session object: the raw
product-data payload and the parsed protocol array. -/
structure garmin_session where
  product_data : List Nat
  protocols : List Protocol_Data_Type
deriving DecidableEq

/-- Mirror of the handshake part of `garmin_new` (src/garmin.c lines
330-357), after the device file is opened and configured.  Send
`Pid_Product_Rqst` (254) with `garmin_write_packet_ack`; expect
`Pid_Product_Data` (255); store its payload; read one more packet — it
must be `Pid_Ext_Product_Data` (248), because after the read
`packet.id` is a byte value (0 after a clean EOF, see the section
comment) and so never equals `EOF`, making the `packet.id != EOF` arm
fire `error("unexpected packet %d")` for every other outcome; then the
next packet must likewise be `Pid_Protocol_Array` (253), whose payload
becomes the protocol array; a further `garmin_read_packet_ack` result is
ignored (it only consumes one reply, which does not affect the returned
session).  Finally the array must contain (L,1) i.e. tag 76 data 1, and
(A,10) i.e. tag 65 data 10. -/
def garmin_new_model (stream : List garmin_packet_t) : SRes garmin_session :=
  match garmin_write_packet_ack_model ⟨254, 0, []⟩ stream with
  | .fatal m => .fatal m
  | .hang => .hang
  | .ok s1 =>
    match garmin_expect_packet_ack 255 s1 with
    | .fatal m => .fatal m
    | .hang => .hang
    | .ok (pd, s2, _) =>
      match s2 with
      | [] => .fatal "unexpected packet"
      | p1 :: s3 =>
        if p1.id = 248 then
          match s3 with
          | [] => .fatal "unexpected packet"
          | p2 :: _ =>
            if p2.id = 253 then
              let protos := protocols_of_bytes p2.size p2.data
              if (garmin_grep_protocol protos 76 1).isSome then
                if (garmin_grep_protocol protos 65 10).isSome then
                  .ok ⟨pd.data.take pd.size, protos⟩
                else .fatal "device does not support Device Command Protocol A010"
              else .fatal "device does not support Link Protocol L001"
            else .fatal "unexpected packet"
        else .fatal "unexpected packet"

/-!
Capability resolution — the scan over the protocol array and the
validation performed by `garmin_transfer_trk` (src/garmin.c lines
485-564) before it starts the transfer.  Tags: 65 is the application tag
(ASCII A), 68 the data tag (ASCII D), 76 the link tag (ASCII L).
-/

/-- The `while (protocol_data < protocol_data_end)` scan of
`garmin_transfer_trk` (src/garmin.c lines 490-520), with the
`memset`-zeroed accumulators for the track-header and track-point
entries.  An application entry with data 300 takes the next entry as the
track-point protocol; data 301 or 302 take the next two entries as
(track-header, track-point); running off the end while doing so is the
`goto _error` (`none`). -/
def garmin_trk_scan : List Protocol_Data_Type → Protocol_Data_Type →
    Protocol_Data_Type → Option (Protocol_Data_Type × Protocol_Data_Type)
  | [], hdr, dat => some (hdr, dat)
  | e :: rest, hdr, dat =>
    if e.tag = 65 then
      if e.data = 300 then
        match rest with
        | [] => none
        | d :: rest2 => garmin_trk_scan rest2 hdr d
      else if e.data = 301 ∨ e.data = 302 then
        match rest with
        | [] => none
        | h :: rest2 =>
          match rest2 with
          | [] => none
          | d :: rest3 => garmin_trk_scan rest3 h d
      else garmin_trk_scan rest hdr dat
    else garmin_trk_scan rest hdr dat

/-- The legacy-product whitelist `supported_product_ids`
(src/garmin.c line 522). -/
def supported_product_ids : List Nat :=
  [13, 18, 22, 23, 24, 25, 29, 31, 35, 36, 39, 41, 42, 44, 45, 47, 48, 49,
   50, 53, 55, 56, 59, 61, 62, 71, 72, 73, 74, 76, 77, 87, 88, 95, 96, 97,
   100, 105, 106, 112]

/-- The validation chain of `garmin_transfer_trk` (src/garmin.c lines
532-557): the track-point entry must have tag 68 and data 300..304, and
a present (nonzero-tag) track-header entry must have tag 68 and data
310..312.  Every failure is the single fatal message
"unsupported track transfer protocol". -/
def garmin_trk_validate (hdr dat : Protocol_Data_Type) :
    Except String (Protocol_Data_Type × Protocol_Data_Type) :=
  if dat.tag = 0 then .error "unsupported track transfer protocol"
  else if dat.tag ≠ 68 then .error "unsupported track transfer protocol"
  else if ¬ (dat.data = 300 ∨ dat.data = 301 ∨ dat.data = 302 ∨
             dat.data = 303 ∨ dat.data = 304) then
    .error "unsupported track transfer protocol"
  else if hdr.tag ≠ 0 ∧ (hdr.tag ≠ 68 ∨
          ¬ (hdr.data = 310 ∨ hdr.data = 311 ∨ hdr.data = 312)) then
    .error "unsupported track transfer protocol"
  else .ok (hdr, dat)

/-- The capability-resolution part of `garmin_transfer_trk`
(src/garmin.c lines 490-557): scan the protocol array; if the scan left
no track-point entry (tag 0) and the product id is whitelisted, assume
(D,300); then validate. -/
def garmin_transfer_trk_resolve (protos : List Protocol_Data_Type)
    (product_id : Nat) : Except String (Protocol_Data_Type × Protocol_Data_Type) :=
  match garmin_trk_scan protos ⟨0, 0⟩ ⟨0, 0⟩ with
  | none => .error "unsupported track transfer protocol"
  | some (hdr, dat0) =>
    garmin_trk_validate hdr
      (if dat0.tag = 0 ∧ product_id ∈ supported_product_ids
       then (⟨68, 300⟩ : Protocol_Data_Type) else dat0)

/-!
IGC emitter and the download operation (src/garmini.c lines 840-943).
The emitter's calendar arithmetic (`gmtime` on a POSIX timestamp, the
process TZ being UTC) is embedded with the standard civil-from-days
algorithm.  The latitude/longitude/altitude digits of a B record are
computed with C `float`/`double` arithmetic in the source; they are taken
as an opaque parameter `bfields` (and the `alt == 1.0e25` sentinel test
as `noAlt`), so every theorem below holds for all values of those
parameters.  Everything else — record set, order, dates, terminators,
the position sentinel test — is embedded exactly.
-/

/-- Formatting with `%02d` of a nonnegative value. -/
def fmt2 (n : Nat) : String :=
  (if n < 10 then "0" else "") ++ toString n

/-- Formatting with `%03d` of a nonnegative value. -/
def fmt3 (n : Nat) : String :=
  (if n < 10 then "00" else if n < 100 then "0" else "") ++ toString n

/-- Civil date `(year, month, day)` of a day count since 1970-01-01
(Gregorian, valid for nonnegative POSIX times). -/
def civil_from_days (z : Nat) : Nat × Nat × Nat :=
  let d := z + 719468
  let era := d / 146097
  let doe := d % 146097
  let yoe := (doe - doe / 1460 + doe / 36524 - doe / 146096) / 365
  let y := yoe + era * 400
  let doy := doe - (365 * yoe + yoe / 4 - yoe / 100)
  let mp := (5 * doy + 2) / 153
  let day := doy - (153 * mp + 2) / 5 + 1
  let month := if mp < 10 then mp + 3 else mp - 9
  (if month ≤ 2 then y + 1 else y, month, day)

/-- The `(year, month, day)` fields `gmtime` yields for a nonnegative
POSIX timestamp (year as the full Gregorian year, i.e.
`tm_year + 1900`). -/
def gmtime_date (t : Nat) : Nat × Nat × Nat :=
  civil_from_days (t / 86400)

/-- The `HFDTE` record as printed by src/garmini.c lines 845 and 868:
`"HFDTE%02d%02d%02d\n"` of day, month and `(tm_year + 1900) % 100` —
note the bare `"\n"` terminator in the source, unlike every other
record. -/
def igc_hfdte_line (d : Nat × Nat × Nat) : String :=
  "HFDTE" ++ fmt2 d.2.2 ++ fmt2 d.2.1 ++ fmt2 (d.1 % 100) ++ "\n"

/-- Whether a record string ends with the two-byte sequence CR LF
(byte 13 then byte 10), stated over the string's character list. -/
def crlf_terminated (s : String) : Bool :=
  s.data.reverse.take 2 == ['\n', '\x0d']

/-- A decoded track point as consumed by the IGC emitter
(`garmin_trk_point_t` of src/garmin.h with the device timestamp kept in
device epoch, position in semicircles, and the `float` altitude of the C
struct abstracted to a type `A`). -/
structure igc_trk_point (A : Type) where
  time : Nat
  lat : Int
  lon : Int
  alt : A
  validity : Nat
deriving DecidableEq

/-- The IGC-relevant configuration globals of src/garmini.c (lines
203-212).  `barometric_altimeter` only routes the float-computed
altitude into one of the two abstracted B-record fields, so it lives
inside the `bfields` parameter. -/
structure igc_config where
  manufacturer : String
  serial_number : Nat
  pilot : Option String
  glider_type : Option String
  glider_id : Option String
  competition_id : Option String
  competition_class : Option String
deriving DecidableEq

/-- The product data used by the emitter (`Product_Data_Type` of
src/garmin.h; `software_version` modelled nonnegative). -/
structure Product_Data_Model where
  product_id : Nat
  software_version : Nat
  product_description : String
deriving DecidableEq

/-- The B-record loop of `garmini_write_igc` (src/garmini.c lines
861-884).  A point whose position is the sentinel
`(0x7fffffff, 0x7fffffff)`, or whose altitude is the no-altitude
sentinel (`alt == 1.0e25`, abstracted by `noAlt`), emits nothing.
Otherwise, if its UTC date differs from the date of the last `HFDTE`
emitted, a fresh `HFDTE` record (LF-terminated) precedes its B record;
the B record carries the UTC time of day and ends with CRLF. -/
def igc_b_loop {A : Type} (noAlt : A → Bool) (bfields : igc_trk_point A → String) :
    Nat × Nat × Nat → List (igc_trk_point A) → List String
  | _, [] => []
  | last, pt :: rest =>
    if (pt.lat = 0x7fffffff ∧ pt.lon = 0x7fffffff) ∨ noAlt pt.alt then
      igc_b_loop noAlt bfields last rest
    else
      let t := pt.time + 631065600
      let d := gmtime_date t
      let b := "B" ++ fmt2 (t % 86400 / 3600) ++ fmt2 (t % 3600 / 60) ++ fmt2 (t % 60)
                 ++ bfields pt ++ "\r\n"
      if d ≠ last then igc_hfdte_line d :: b :: igc_b_loop noAlt bfields d rest
      else b :: igc_b_loop noAlt bfields last rest

/-- Mirror of `garmini_write_igc` (src/garmini.c lines 840-885): the
list of records written, in order.  The `HFDTE` header carries the UTC
date of `begin->time` — the *first* point whether valid or not — or of
device time 0 when the track is empty. -/
def garmini_write_igc {A : Type} (noAlt : A → Bool)
    (bfields : igc_trk_point A → String) (cfg : igc_config)
    (product : Product_Data_Model) (track : List (igc_trk_point A)) : List String :=
  let t0 := (match track with | [] => 0 | pt :: _ => pt.time) + 631065600
  let d0 := gmtime_date t0
  ["A" ++ cfg.manufacturer ++ fmt3 cfg.serial_number ++ "\r\n",
   igc_hfdte_line d0,
   "HFFXA100\r\n"]
  ++ (match cfg.pilot with
      | none => []
      | some p => ["HPPLTPILOT:" ++ p ++ "\r\n"])
  ++ (match cfg.glider_type with
      | none => []
      | some g => ["HPGTYGLIDERTYPE:" ++ g ++ "\r\n"])
  ++ (match cfg.glider_id with
      | none => []
      | some g => ["HPGIDGLIDERID:" ++ g ++ "\r\n"])
  ++ ["HDTM100GPSDATUM:WGS-1984\r\n",
      "HFRFWFIRMWAREREVISION:" ++ toString (product.software_version / 100) ++ "."
        ++ fmt2 (product.software_version % 100) ++ "\r\n",
      "HFFTYFRTYPE:GARMIN," ++ product.product_description ++ "\r\n"]
  ++ (match cfg.competition_id with
      | none => []
      | some c => ["HPCIDCOMPETITIONID:" ++ c ++ "\r\n"])
  ++ (match cfg.competition_class with
      | none => []
      | some c => ["HPCCLCOMPETITIONCLASS:" ++ c ++ "\r\n"])
  ++ igc_b_loop noAlt bfields d0 track

/-- Mirror of `garmini_download` (src/garmini.c lines 912-943): after
the optional `chdir` and the track transfer, the entire flight-splitting
and IGC-file-writing loop of the function is excluded from compilation by
`#if 0` ... `#endif`, so the operation writes no files.  The result is
the list of `(filename, records)` files written. -/
def garmini_download {A : Type} (_track : List (igc_trk_point A)) :
    List (String × List String) :=
  []

/-!
Theorems about the framer.
-/

theorem garmin_stuff_cons (b : Nat) :
    (b :: (if b = 16 then [16] else [])) = garmin_stuff b := by
  by_cases h : b = 16 <;> simp [garmin_stuff, h]

theorem garmin_getc_dle_stuff (b : Nat) (rest : List Nat) :
    garmin_getc_dle (garmin_stuff b ++ rest) = .ok b rest := by
  by_cases h : b = 16 <;> simp [garmin_stuff, garmin_getc_dle, h]

theorem garmin_read_data_stuff (data : List Nat) (rest : List Nat) :
    garmin_read_data data.length (data.flatMap garmin_stuff ++ rest) = .ok data rest := by
  induction data with
  | nil => simp [garmin_read_data]
  | cons b t ih =>
    simp only [List.flatMap_cons, List.append_assoc, List.length_cons]
    simp [garmin_read_data, garmin_getc_dle_stuff, ih]

theorem garmin_write_packet_stuffed (p : garmin_packet_t)
    (hid : p.id ≤ 255) (hsize : p.size ≤ 255) :
    garmin_write_packet p =
      16 :: (garmin_stuff p.id ++ (garmin_stuff p.size ++ (p.data.flatMap garmin_stuff ++
        (garmin_stuff ((256 - (p.id + p.size + p.data.sum) % 256) % 256) ++ [16, 3])))) := by
  have h1 : p.id % 256 = p.id := Nat.mod_eq_of_lt (by omega)
  have h2 : p.size % 256 = p.size := Nat.mod_eq_of_lt (by omega)
  simp [garmin_write_packet, h1, h2, garmin_stuff_cons, List.append_assoc]

/-- C2: for every packet with byte-sized id, size and data, decoding the
encoding yields the same packet and consumes the whole frame
(`garmin_read_packet ∘ garmin_write_packet = id`). -/
theorem garmin_packet_roundtrip (p : garmin_packet_t) (hid : p.id ≤ 255)
    (hsize : p.size = p.data.length) (hlen : p.data.length ≤ 255)
    (hdata : ∀ b ∈ p.data, b ≤ 255) :
    garmin_read_packet (garmin_write_packet p) = .ok p [] := by
  obtain ⟨id, size, data⟩ := p
  simp only at hsize
  subst hsize
  rw [garmin_write_packet_stuffed ⟨id, data.length, data⟩ hid (by simpa using hlen)]
  simp [garmin_read_packet, garmin_getc_dle_stuff, garmin_read_data_stuff]

/-- Witness for C2 at a concrete packet whose payload contains a `DLE`
byte. -/
theorem garmin_packet_roundtrip_witness :
    garmin_read_packet (garmin_write_packet ⟨2, 1, [16]⟩) = .ok ⟨2, 1, [16]⟩ [] :=
  garmin_packet_roundtrip ⟨2, 1, [16]⟩ (by decide) (by decide) (by decide) (by decide)

/-- C3: `garmin_read_packet` accepts a frame exactly when
`(id + size + sum(data) + checksum) mod 256 = 0`, where `checksum` is the
frame's unstuffed checksum byte; otherwise it fails fatally with
"checksum failed". -/
theorem garmin_read_packet_checksum (id : Nat) (data : List Nat) (c : Nat)
    (hc : c ≤ 255) :
    garmin_read_packet (garmin_frame id data c) =
      if (id + data.length + data.sum + c) % 256 = 0
      then .ok ⟨id, data.length, data⟩ []
      else .fatal "checksum failed" := by
  have hiff : (c = (256 - (id + data.length + data.sum) % 256) % 256) ↔
      ((id + data.length + data.sum + c) % 256 = 0) := by omega
  by_cases h : (id + data.length + data.sum + c) % 256 = 0
  · rw [if_pos h]
    have hc2 := hiff.mpr h
    simp only [garmin_frame, List.append_assoc, List.singleton_append]
    simp [garmin_read_packet, garmin_getc_dle_stuff, garmin_read_data_stuff, hc2]
  · rw [if_neg h]
    have hc2 : c ≠ (256 - (id + data.length + data.sum) % 256) % 256 :=
      fun habs => h (hiff.mp habs)
    simp only [garmin_frame, List.append_assoc, List.singleton_append]
    simp [garmin_read_packet, garmin_getc_dle_stuff, garmin_read_data_stuff, hc2]

/-- Witness for C3 at a concrete frame whose checksum balances the sum
to 0 mod 256. -/
theorem garmin_read_packet_checksum_witness :
    garmin_read_packet (garmin_frame 1 [2] 252) =
      if (1 + [2].length + [2].sum + 252) % 256 = 0
      then .ok ⟨1, [2].length, [2]⟩ []
      else .fatal "checksum failed" :=
  garmin_read_packet_checksum 1 [2] 252 (by decide)

/-!
Theorems about the session layer.
-/

theorem garmin_expect_append (id : Nat) (junk : List garmin_packet_t)
    (pkt : garmin_packet_t) (rest : List garmin_packet_t)
    (hj : ∀ p ∈ junk, p.id ≠ id) (hp : pkt.id = id) :
    garmin_expect_packet_ack id (junk ++ pkt :: rest) =
      .ok (pkt, rest,
        junk.flatMap (fun p => [.wrote (garmin_ack p.id), .warned p])
          ++ [.wrote (garmin_ack id)]) := by
  induction junk with
  | nil => simp [garmin_expect_packet_ack, hp]
  | cons q t ih =>
    have hq : q.id ≠ id := hj q (by simp)
    have ht : ∀ p ∈ t, p.id ≠ id := fun p hmem => hj p (by simp [hmem])
    simp [garmin_expect_packet_ack, hq, ih ht]

theorem garmin_each_loop_append (n : Nat) (dataPkts s : List garmin_packet_t) :
    ∀ i, garmin_each_loop n i dataPkts.length (dataPkts ++ s) =
      ((List.enumFrom i dataPkts).flatMap
        (fun x => [.wrote (garmin_ack x.2.id), .invoked x.1 n x.2]), s) := by
  induction dataPkts with
  | nil => intro i; simp [garmin_each_loop]
  | cons p t ih =>
    intro i
    simp [garmin_each_loop, List.enumFrom, ih (i + 1)]

/-- C4: on a reply stream that acknowledges the command, announces `N`
records in the `Pid_Records` payload (u16 LE), and ends the transfer
with `Pid_Xfer_Cmplt` (possibly with other packets before the
`Pid_Records` and the `Pid_Xfer_Cmplt`), `garmin_each` produces exactly
`N` callback invocations, the `i`-th carrying `(i, N, dataPkts[i])`,
each preceded by the acknowledgement of the packet it delivers, and
finishes by reading up to the `Pid_Xfer_Cmplt` packet. -/
theorem garmin_each_trace
    (ackC recPkt cmpltPkt : garmin_packet_t)
    (junk1 junk2 dataPkts rest : List garmin_packet_t) (N : Nat)
    (ha : ackC.id = 6) (ha2 : ackC.size = 2) (ha3 : u16le ackC.data = 10)
    (hj1 : ∀ p ∈ junk1, p.id ≠ 27) (hr : recPkt.id = 27)
    (hn : u16le recPkt.data = N) (hd : dataPkts.length = N)
    (hj2 : ∀ p ∈ junk2, p.id ≠ 12) (hc : cmpltPkt.id = 12) :
    garmin_each 6 (ackC :: (junk1 ++ recPkt :: (dataPkts ++ (junk2 ++ cmpltPkt :: rest)))) =
      .ok (GEvent.wrote ⟨10, 2, [6, 0]⟩ ::
        (junk1.flatMap (fun p => [.wrote (garmin_ack p.id), .warned p])
           ++ [.wrote (garmin_ack 27)])
        ++ (dataPkts.enum.flatMap
             (fun x => [.wrote (garmin_ack x.2.id), .invoked x.1 N x.2])
        ++ (junk2.flatMap (fun p => [.wrote (garmin_ack p.id), .warned p])
           ++ [.wrote (garmin_ack 12)]))) := by
  subst hd
  have hwrite : garmin_write_packet_ack_model ⟨10, 2, [6 % 256, 6 / 256 % 256]⟩
      (ackC :: (junk1 ++ recPkt :: (dataPkts ++ (junk2 ++ cmpltPkt :: rest)))) =
      .ok (junk1 ++ recPkt :: (dataPkts ++ (junk2 ++ cmpltPkt :: rest))) := by
    simp [garmin_write_packet_ack_model, ha, ha2, ha3]
  simp only [garmin_each, hwrite,
    garmin_expect_append 27 junk1 recPkt (dataPkts ++ (junk2 ++ cmpltPkt :: rest)) hj1 hr,
    hn]
  rw [garmin_each_loop_append dataPkts.length dataPkts (junk2 ++ cmpltPkt :: rest) 0]
  simp [garmin_expect_append 12 junk2 cmpltPkt rest hj2 hc, List.enum, List.append_assoc]

/-- Witness for C4 with `N = 2` data packets and one skipped packet
before the completion marker. -/
theorem garmin_each_trace_witness :
    garmin_each 6 [⟨6, 2, [10, 0]⟩, ⟨27, 2, [2, 0]⟩, ⟨34, 3, [1, 2, 3]⟩,
        ⟨99, 0, []⟩, ⟨6, 0, []⟩, ⟨12, 0, []⟩] =
      .ok [GEvent.wrote ⟨10, 2, [6, 0]⟩, .wrote ⟨6, 2, [27, 0]⟩,
           .wrote ⟨6, 2, [34, 0]⟩, .invoked 0 2 ⟨34, 3, [1, 2, 3]⟩,
           .wrote ⟨6, 2, [99, 0]⟩, .invoked 1 2 ⟨99, 0, []⟩,
           .wrote ⟨6, 2, [6, 0]⟩, .warned ⟨6, 0, []⟩,
           .wrote ⟨6, 2, [12, 0]⟩] := by
  have h := garmin_each_trace ⟨6, 2, [10, 0]⟩ ⟨27, 2, [2, 0]⟩ ⟨12, 0, []⟩
    [] [⟨6, 0, []⟩] [⟨34, 3, [1, 2, 3]⟩, ⟨99, 0, []⟩] [] 2
    rfl rfl rfl (by simp) rfl rfl rfl (by decide) rfl
  exact h.trans (by decide)

/-- C5 (amended): the `garmin_expect_packet_ack` of src/garmin.c
acknowledges and warns about every packet whose id differs from the
expected one and returns normally at the first match, while the variant
compiled into src/garmini.c terminates fatally with "unexpected packet"
on the first mismatching packet. -/
theorem garmin_expect_packet_ack_spec (id : Nat) (junk : List garmin_packet_t)
    (pkt : garmin_packet_t) (rest : List garmin_packet_t)
    (hj : ∀ p ∈ junk, p.id ≠ id) (hp : pkt.id = id) :
    garmin_expect_packet_ack id (junk ++ pkt :: rest) =
      .ok (pkt, rest,
        junk.flatMap (fun p => [.wrote (garmin_ack p.id), .warned p])
          ++ [.wrote (garmin_ack id)]) ∧
    ∀ (q : garmin_packet_t) (s : List garmin_packet_t), q.id ≠ id →
      garmini_expect_packet_ack id (q :: s) = .fatal "unexpected packet" := by
  constructor
  · exact garmin_expect_append id junk pkt rest hj hp
  · intro q s hq
    simp [garmini_expect_packet_ack, hq]

/-- Witness for C5 at a concrete expected id and stream. -/
theorem garmin_expect_packet_ack_spec_witness :
    garmin_expect_packet_ack 255 [⟨1, 0, []⟩, ⟨255, 0, []⟩] =
      .ok (⟨255, 0, []⟩, [],
        [.wrote (garmin_ack 1), .warned ⟨1, 0, []⟩, .wrote (garmin_ack 255)]) ∧
    garmini_expect_packet_ack 255 [⟨3, 0, []⟩] = .fatal "unexpected packet" := by
  have h := garmin_expect_packet_ack_spec 255 [⟨1, 0, []⟩] ⟨255, 0, []⟩ []
    (by decide) rfl
  exact ⟨h.1.trans (by decide), h.2 ⟨3, 0, []⟩ [] (by decide)⟩

/-- C5 counterexample: the claim "an unexpected id never causes fatal
termination at this point" fails on the `garmin_expect_packet_ack`
compiled into src/garmini.c (cited by the claim): a single packet with
id 27 while 255 is expected is fatal. -/
theorem garmini_expect_packet_ack_counterexample :
    garmini_expect_packet_ack 255 [⟨27, 0, []⟩] = .fatal "unexpected packet" := by
  decide

/-- C6: after `Pid_Product_Data`, a clean EOF does *not* let `garmin_new`
proceed — `garmin_read_packet` zeroes `packet.id` (its `memset` covers
the id field) and returns `EOF` without storing it, so the
`packet.id != EOF` test is true and `garmin_new` dies with
"unexpected packet", contradicting the claim (and the intent visible in
the code's own `packet.id != EOF` checks). -/
theorem garmin_new_eof_unexpected_packet :
    garmin_new_model [⟨6, 2, [254, 0]⟩, ⟨255, 3, [13, 0, 0]⟩] =
      .fatal "unexpected packet" := by
  decide

theorem garmin_grep_pair_length (l : List Protocol_Data_Type)
    (h76 : (garmin_grep_protocol l 76 1).isSome)
    (h65 : (garmin_grep_protocol l 65 10).isSome) : 2 ≤ l.length := by
  match l with
  | [] => simp [garmin_grep_protocol] at h76
  | [a] =>
    by_cases hA : a.tag = 76 ∧ a.data = 1
    · simp [garmin_grep_protocol, hA.1] at h65
    · simp [garmin_grep_protocol, hA] at h76
  | _ :: _ :: _ => simp

/-- C10 (amended): `garmin_new` returns a session only when
`garmin_grep_protocol` finds both the (L,1) entry (tag 76, data 1) and
the (A,10) entry (tag 65, data 10) in the stored protocol array, so the
array of any session reaching `garmin_transfer_trk` has at least two
entries — in particular the legacy D300 fallback can never fire for a
device that sent no protocol array at all. -/
theorem garmin_new_protocols_invariant (stream : List garmin_packet_t)
    (s : garmin_session) (h : garmin_new_model stream = .ok s) :
    ((garmin_grep_protocol s.protocols 76 1).isSome ∧
     (garmin_grep_protocol s.protocols 65 10).isSome) ∧ 2 ≤ s.protocols.length := by
  unfold garmin_new_model at h
  cases hw : garmin_write_packet_ack_model ⟨254, 0, []⟩ stream with
  | fatal m => simp [hw] at h
  | hang => simp [hw] at h
  | ok s1 =>
    simp only [hw] at h
    cases he : garmin_expect_packet_ack 255 s1 with
    | fatal m => simp [he] at h
    | hang => simp [he] at h
    | ok trip =>
      obtain ⟨pd, s2, evs⟩ := trip
      simp only [he] at h
      cases s2 with
      | nil => simp at h
      | cons p1 s3 =>
        by_cases h248 : p1.id = 248
        · cases s3 with
          | nil => simp [h248] at h
          | cons p2 s4 =>
            by_cases h253 : p2.id = 253
            · by_cases hg1 : (garmin_grep_protocol
                  (protocols_of_bytes p2.size p2.data) 76 1).isSome
              · by_cases hg2 : (garmin_grep_protocol
                    (protocols_of_bytes p2.size p2.data) 65 10).isSome
                · simp only [h248, h253, hg1, hg2, if_true] at h
                  simp only [SRes.ok.injEq] at h
                  subst h
                  exact ⟨⟨hg1, hg2⟩, garmin_grep_pair_length _ hg1 hg2⟩
                · simp [h248, h253, hg1, hg2] at h
              · simp [h248, h253, hg1] at h
            · simp [h248, h253] at h
        · simp [h248] at h

/-- Witness for C10: a handshake stream delivering the two mandatory
protocol entries yields a session whose array satisfies the invariant. -/
theorem garmin_new_protocols_invariant_witness :
    ((garmin_grep_protocol [⟨76, 1⟩, ⟨65, 10⟩] 76 1).isSome ∧
     (garmin_grep_protocol [⟨76, 1⟩, ⟨65, 10⟩] 65 10).isSome) ∧
    2 ≤ ([⟨76, 1⟩, ⟨65, 10⟩] : List Protocol_Data_Type).length :=
  garmin_new_protocols_invariant
    [⟨6, 2, [254, 0]⟩, ⟨255, 0, []⟩, ⟨248, 0, []⟩, ⟨253, 6, [76, 1, 0, 65, 10, 0]⟩]
    ⟨[], [⟨76, 1⟩, ⟨65, 10⟩]⟩ (by decide)

/-- C10 counterexample: the fallback is *not* restricted to protocol
arrays lacking an A300/A301/A302 entry.  A device whose handshake stores
the array [(L,1), (A,10), (A,300), (tag 0, 0)] passes `garmin_new`; the
scan leaves the track-point slot with tag 0 (the entry following A300
has tag 0), so for the whitelisted product id 13 the D300 fallback
fires even though the array does contain an (A,300) entry. -/
theorem garmin_new_fallback_counterexample :
    garmin_new_model
        [⟨6, 2, [254, 0]⟩, ⟨255, 3, [13, 0, 0]⟩, ⟨248, 0, []⟩,
         ⟨253, 12, [76, 1, 0, 65, 10, 0, 65, 44, 1, 0, 0, 0]⟩] =
      .ok ⟨[13, 0, 0], [⟨76, 1⟩, ⟨65, 10⟩, ⟨65, 300⟩, ⟨0, 0⟩]⟩ ∧
    (⟨65, 300⟩ : Protocol_Data_Type) ∈
      ([⟨76, 1⟩, ⟨65, 10⟩, ⟨65, 300⟩, ⟨0, 0⟩] : List Protocol_Data_Type) ∧
    garmin_trk_scan [⟨76, 1⟩, ⟨65, 10⟩, ⟨65, 300⟩, ⟨0, 0⟩] ⟨0, 0⟩ ⟨0, 0⟩ =
      some (⟨0, 0⟩, ⟨0, 0⟩) ∧
    garmin_transfer_trk_resolve [⟨76, 1⟩, ⟨65, 10⟩, ⟨65, 300⟩, ⟨0, 0⟩] 13 =
      .ok (⟨0, 0⟩, ⟨68, 300⟩) := by
  refine ⟨by decide, by decide, by decide, by rfl⟩
theorem garmin_transfer_trk_resolve_eq (protos : List Protocol_Data_Type)
    (pid : Nat) (h0 d0 : Protocol_Data_Type)
    (hs : garmin_trk_scan protos ⟨0, 0⟩ ⟨0, 0⟩ = some (h0, d0)) :
    garmin_transfer_trk_resolve protos pid =
      garmin_trk_validate h0
        (if d0.tag = 0 ∧ pid ∈ supported_product_ids
         then (⟨68, 300⟩ : Protocol_Data_Type) else d0) := by
  unfold garmin_transfer_trk_resolve
  rw [hs]

theorem garmin_transfer_trk_resolve_eq_none (protos : List Protocol_Data_Type)
    (pid : Nat) (hs : garmin_trk_scan protos ⟨0, 0⟩ ⟨0, 0⟩ = none) :
    garmin_transfer_trk_resolve protos pid =
      .error "unsupported track transfer protocol" := by
  unfold garmin_transfer_trk_resolve
  rw [hs]

/-- C9 (amended): every successful resolution yields a track-point
protocol with tag 68 and data 300..304 and a track-header slot that is
either absent (tag 0) or has tag 68 and data 310..312; every failure
carries the single message "unsupported track transfer protocol"; and
when the scan leaves the track-point slot empty (tag 0), the product id
is whitelisted, and the scan's track-header slot is absent or valid, the
resolution succeeds with the assumed (D,300) track-point protocol. -/
theorem garmin_transfer_trk_resolution (protos : List Protocol_Data_Type) (pid : Nat) :
    (∀ hdr dat, garmin_transfer_trk_resolve protos pid = .ok (hdr, dat) →
       (dat.tag = 68 ∧ (dat.data = 300 ∨ dat.data = 301 ∨ dat.data = 302 ∨
          dat.data = 303 ∨ dat.data = 304)) ∧
       (hdr.tag = 0 ∨ (hdr.tag = 68 ∧
          (hdr.data = 310 ∨ hdr.data = 311 ∨ hdr.data = 312)))) ∧
    (∀ m, garmin_transfer_trk_resolve protos pid = .error m →
       m = "unsupported track transfer protocol") ∧
    (∀ hdr dat, garmin_trk_scan protos ⟨0, 0⟩ ⟨0, 0⟩ = some (hdr, dat) →
       dat.tag = 0 → pid ∈ supported_product_ids →
       (hdr.tag = 0 ∨ (hdr.tag = 68 ∧
          (hdr.data = 310 ∨ hdr.data = 311 ∨ hdr.data = 312))) →
       garmin_transfer_trk_resolve protos pid = .ok (hdr, ⟨68, 300⟩)) := by
  refine ⟨?_, ?_, ?_⟩
  · intro hdr dat h
    cases hs : garmin_trk_scan protos ⟨0, 0⟩ ⟨0, 0⟩ with
    | none =>
      rw [garmin_transfer_trk_resolve_eq_none protos pid hs] at h
      simp at h
    | some pr =>
      obtain ⟨h0, d0⟩ := pr
      rw [garmin_transfer_trk_resolve_eq protos pid h0 d0 hs] at h
      generalize (if d0.tag = 0 ∧ pid ∈ supported_product_ids
        then (⟨68, 300⟩ : Protocol_Data_Type) else d0) = dd at h
      unfold garmin_trk_validate at h
      split_ifs at h with h1 h2 h3 h4
      simp only [Except.ok.injEq, Prod.mk.injEq] at h
      obtain ⟨hh, hd⟩ := h
      subst hh
      subst hd
      refine ⟨⟨not_not.mp h2, h3⟩, ?_⟩
      by_cases hz : h0.tag = 0
      · exact Or.inl hz
      · push_neg at h4
        exact Or.inr (h4 hz)
  · intro m h
    cases hs : garmin_trk_scan protos ⟨0, 0⟩ ⟨0, 0⟩ with
    | none =>
      rw [garmin_transfer_trk_resolve_eq_none protos pid hs] at h
      injection h with hx
      exact hx.symm
    | some pr =>
      obtain ⟨h0, d0⟩ := pr
      rw [garmin_transfer_trk_resolve_eq protos pid h0 d0 hs] at h
      generalize (if d0.tag = 0 ∧ pid ∈ supported_product_ids
        then (⟨68, 300⟩ : Protocol_Data_Type) else d0) = dd at h
      unfold garmin_trk_validate at h
      split_ifs at h <;> (injection h with hx; exact hx.symm)
  · intro hdr dat hs htag hmem hok
    rw [garmin_transfer_trk_resolve_eq protos pid hdr dat hs]
    rw [if_pos ⟨htag, hmem⟩]
    rcases hok with h0 | ⟨h68, hdisj⟩
    · simp [garmin_trk_validate, h0]
    · rcases hdisj with hD | hD | hD <;> simp [garmin_trk_validate, h68, hD]

/-- Witness for C9: a protocol array with no application track entry and
the whitelisted product id 13 resolves to the assumed (D,300). -/
theorem garmin_transfer_trk_resolution_witness :
    garmin_transfer_trk_resolve [⟨76, 1⟩, ⟨65, 10⟩] 13 = .ok (⟨0, 0⟩, ⟨68, 300⟩) :=
  (garmin_transfer_trk_resolution [⟨76, 1⟩, ⟨65, 10⟩] 13).2.2 ⟨0, 0⟩ ⟨0, 0⟩
    rfl rfl (by decide) (Or.inl rfl)

/-- C9 counterexample: the scan can leave the track-point slot empty
(tag 0) with the product id whitelisted, and yet the result is not
(D,300) but the fatal error — here because an A301 entry left an invalid
track-header entry behind. -/
theorem garmin_transfer_trk_fallback_not_d300_counterexample :
    garmin_trk_scan [⟨65, 301⟩, ⟨5, 7⟩, ⟨0, 0⟩] ⟨0, 0⟩ ⟨0, 0⟩ =
      some (⟨5, 7⟩, ⟨0, 0⟩) ∧
    (13 ∈ supported_product_ids) ∧
    garmin_transfer_trk_resolve [⟨65, 301⟩, ⟨5, 7⟩, ⟨0, 0⟩] 13 =
      .error "unsupported track transfer protocol" := by
  refine ⟨by decide, by decide, by rfl⟩

/-!
Theorems about the IGC emitter and the download operation.
-/

/-- C7 (amended): the initial `HFDTE` record (always the second record
written) carries the UTC date of the *first* track point, valid or not;
for an empty track it carries the date of device time 0 + 631065600,
i.e. 1989-12-31, printing `HFDTE311289` (not `HFDTE000000`). -/
theorem garmini_write_igc_hfdte_date {A : Type} (noAlt : A → Bool)
    (bfields : igc_trk_point A → String) (cfg : igc_config)
    (product : Product_Data_Model) (track : List (igc_trk_point A)) :
    (garmini_write_igc noAlt bfields cfg product track)[1]? =
      some (igc_hfdte_line (gmtime_date
        ((track.head?.map igc_trk_point.time).getD 0 + 631065600))) ∧
    (garmini_write_igc noAlt bfields cfg product ([] : List (igc_trk_point A)))[1]? =
      some "HFDTE311289\n" := by
  constructor
  · cases track with
    | nil => simp [garmini_write_igc]
    | cons pt rest => simp [garmini_write_igc]
  · simp only [garmini_write_igc]
    rfl

/-- C7 counterexample: a track whose first point is the invalid-position
sentinel dated 1989-12-31 and whose first *valid* point is dated
1990-01-01 still gets the header `HFDTE311289` (the first point's date),
not `HFDTE010190` (the first valid point's date); the valid point then
triggers a date-rollover `HFDTE010190` record before its B record.  An
empty track gets `HFDTE311289`, not `HFDTE000000`. -/
theorem garmini_write_igc_hfdte_counterexample :
    (garmini_write_igc (fun _ : Unit => false) (fun _ => "")
        ⟨"XXX", 0, none, none, none, none, none⟩ ⟨0, 0, ""⟩
        [⟨0, 0x7fffffff, 0x7fffffff, (), 86⟩, ⟨86400, 1, 1, (), 65⟩])[1]? =
      some "HFDTE311289\n" ∧
    gmtime_date (86400 + 631065600) = (1990, 1, 1) ∧
    igc_b_loop (fun _ : Unit => false) (fun _ => "") (gmtime_date 631065600)
        [⟨0, 0x7fffffff, 0x7fffffff, (), 86⟩, ⟨86400, 1, 1, (), 65⟩] =
      ["HFDTE010190\n", "B000000\r\n"] ∧
    (garmini_write_igc (fun _ : Unit => false) (fun _ => "")
        ⟨"XXX", 0, none, none, none, none, none⟩ ⟨0, 0, ""⟩
        ([] : List (igc_trk_point Unit)))[1]? = some "HFDTE311289\n" ∧
    "HFDTE311289\n" ≠ "HFDTE010190\n" ∧ "HFDTE311289\n" ≠ "HFDTE000000\n" := by
  refine ⟨by rfl, by rfl, by rfl, by rfl, by decide, by decide⟩

/-- C8: not every record is CRLF-terminated — the `HFDTE` records are
written with `"HFDTE%02d%02d%02d\n"` (src/garmini.c lines 845 and 868),
a bare LF, while the claim requires the two-byte "\r\n".  Evaluated here
on the empty track: the second record is `HFDTE311289\n`. -/
theorem garmini_write_igc_hfdte_not_crlf :
    (garmini_write_igc (fun _ : Unit => false) (fun _ => "")
        ⟨"XXX", 0, none, none, none, none, none⟩ ⟨0, 0, ""⟩
        ([] : List (igc_trk_point Unit)))[1]? = some "HFDTE311289\n" ∧
    crlf_terminated "HFDTE311289\n" = false ∧
    crlf_terminated "HFFXA100\r\n" = true := by
  refine ⟨by rfl, by decide, by decide⟩

/-- C1: `garmini_download` writes no IGC files at all — the whole
splitting-and-emitting loop of src/garmini.c lines 920-942 is inside
`#if 0`/`#endif` — even for a non-empty track. -/
theorem garmini_download_writes_no_files :
    garmini_download [(⟨0, 1, 1, (), 65⟩ : igc_trk_point Unit)] = [] ∧
    [(⟨0, 1, 1, (), 65⟩ : igc_trk_point Unit)] ≠ [] := by
  refine ⟨rfl, by decide⟩
